import Mathlib

/-!
Verification of the ForexFactory calendar scraper (src/scraper/ffs.py).

The Python code is shallowly embedded as executable Lean definitions:

* a timezone-aware Python datetime is modelled by PyDateTime: naive calendar
  fields plus a fixed offset from UTC in minutes (the IANA zones used by the
  scraper are modelled as fixed-offset zones; none of the verified code paths
  depend on DST transitions);
* datetime comparison and subtraction of aware datetimes go through utcSec,
  the instant of the datetime in seconds measured from 0001-01-01 00:00 UTC,
  matching Python aware-datetime semantics;
* Python float arithmetic in the numeric parsing / outcome code is modelled
  by exact rationals; the literal 0.0001 is modelled as 1/10000 (all facts
  proved about it are far from rounding boundaries);
* fallible Python code is modelled with Option / Except, with an explicit
  PyError type for the distinct exception classes the code raises or catches.
-/

namespace FFS

/-- Exception classes relevant to ffs.py (TypeError is never caught there). -/
inductive PyError where
  | typeError
  | valueError
  | keyError
  | jsonDecodeError
deriving DecidableEq

/-- Model of a Python timezone-aware datetime: naive fields in the attached
zone plus the zone's fixed offset from UTC in minutes. -/
structure PyDateTime where
  year : Nat
  month : Nat
  day : Nat
  hour : Nat
  minute : Nat
  second : Nat
  tzOffsetMin : Int
deriving DecidableEq

/-- Gregorian leap-year rule, as in Python's calendar.isleap. -/
def isLeapYear (y : Nat) : Bool :=
  (y % 4 == 0 && y % 100 != 0) || y % 400 == 0

/-- Length of a month, as used by datetime's calendar arithmetic. -/
def daysInMonth (y m : Nat) : Nat :=
  if m = 2 then (if isLeapYear y then 29 else 28)
  else if m = 4 ∨ m = 6 ∨ m = 9 ∨ m = 11 then 30
  else 31

/-- datetime validity: what the Python datetime constructor enforces
(year at least MINYEAR = 1, calendar-valid month/day, in-range time). -/
def PyDateTime.Valid (dt : PyDateTime) : Prop :=
  1 ≤ dt.year ∧ 1 ≤ dt.month ∧ dt.month ≤ 12 ∧ 1 ≤ dt.day ∧
    dt.day ≤ daysInMonth dt.year dt.month ∧
    dt.hour ≤ 23 ∧ dt.minute ≤ 59 ∧ dt.second ≤ 59

instance (dt : PyDateTime) : Decidable dt.Valid := by
  unfold PyDateTime.Valid; infer_instance

/-- Days in the given year that precede month m (m between 1 and 12). -/
def daysBeforeMonth (y m : Nat) : Nat :=
  (match m with
   | 1 => 0 | 2 => 31 | 3 => 59 | 4 => 90 | 5 => 120 | 6 => 151
   | 7 => 181 | 8 => 212 | 9 => 243 | 10 => 273 | 11 => 304 | _ => 334) +
  (if 3 ≤ m ∧ isLeapYear y then 1 else 0)

/-- Day number of the date counting 0001-01-01 as 0; this is Python's
date.toordinal() minus 1, using the same proleptic-Gregorian formula. -/
def ordinalDay (dt : PyDateTime) : Nat :=
  365 * (dt.year - 1) + (dt.year - 1) / 4 - (dt.year - 1) / 100 + (dt.year - 1) / 400 +
    daysBeforeMonth dt.year dt.month + (dt.day - 1)

/-- Seconds from 0001-01-01 00:00 to the datetime's naive (wall-clock) fields. -/
def naiveSec (dt : PyDateTime) : Nat :=
  86400 * ordinalDay dt + 3600 * dt.hour + 60 * dt.minute + dt.second

/-- The instant of an aware datetime, in seconds from 0001-01-01 00:00 UTC.
Aware-datetime comparison and subtraction in Python compare these values. -/
def utcSec (dt : PyDateTime) : Int :=
  (naiveSec dt : Int) - 60 * dt.tzOffsetMin

/-- Python date.isoweekday(): Monday = 1 .. Sunday = 7
(0001-01-01 was a Monday in the proleptic Gregorian calendar). -/
def isoweekday (dt : PyDateTime) : Nat :=
  ordinalDay dt % 7 + 1

/-- Hour-of-day of the instant, in UTC: dt.astimezone(TZ_UTC).hour. -/
def utcHourOf (dt : PyDateTime) : Int :=
  ((utcSec dt).fmod 86400).fdiv 3600

/-- Sydney/Asian session range 21:00-06:00 UTC (wraps midnight):
utc_hour at or after sydney_start, or before sydney_end. -/
def in_sydney (dt : PyDateTime) : Prop :=
  21 ≤ utcHourOf dt ∨ utcHourOf dt < 6

/-- London session range 07:00-16:00 UTC. -/
def in_london (dt : PyDateTime) : Prop :=
  7 ≤ utcHourOf dt ∧ utcHourOf dt < 16

/-- New York session range 12:00-21:00 UTC. -/
def in_new_york (dt : PyDateTime) : Prop :=
  12 ≤ utcHourOf dt ∧ utcHourOf dt < 21

instance (dt : PyDateTime) : Decidable (in_sydney dt) := by unfold in_sydney; infer_instance
instance (dt : PyDateTime) : Decidable (in_london dt) := by unfold in_london; infer_instance
instance (dt : PyDateTime) : Decidable (in_new_york dt) := by unfold in_new_york; infer_instance

/-- ffs.get_trading_session: classify the instant's UTC hour, overlaps first. -/
def get_trading_session (dt : PyDateTime) : String :=
  if in_london dt ∧ in_new_york dt then "london_ny_overlap"
  else if in_sydney dt ∧ in_london dt then "asian_london_overlap"
  else if in_london dt then "london"
  else if in_new_york dt then "new_york"
  else if in_sydney dt then "asian"
  else "off_hours"

/-- Characters stripped by Python str.strip(): the ASCII whitespace plus the
vertical tab, form feed and no-break space (the unicode whitespace actually
reachable in the scraper's inputs). -/
def pyWhitespaceChar (c : Char) : Bool :=
  c == ' ' || c == '\t' || c == '\n' || c == '\r' || c == '\x0b' ||
    c == '\x0c' || c == '\xa0'

/-- Python str.strip() on a character list. -/
def pyStripList (l : List Char) : List Char :=
  ((l.dropWhile pyWhitespaceChar).reverse.dropWhile pyWhitespaceChar).reverse

/-- Python str.strip() on a string. -/
def pyStrip (s : String) : String :=
  ⟨pyStripList s.data⟩

/-- Python str.replace of the literal six characters of an HTML no-break-space
entity by the empty string (left-to-right, non-overlapping). -/
def stripNbsp : List Char → List Char
  | '&' :: 'n' :: 'b' :: 's' :: 'p' :: ';' :: rest => stripNbsp rest
  | c :: rest => c :: stripNbsp rest
  | [] => []

/-- Numeric value of a decimal digit character. -/
def digitVal (c : Char) : Nat :=
  c.toNat - '0'.toNat

/-- Value of a nonempty decimal digit run, most significant first. -/
def digitsToNat (l : List Char) : Nat :=
  l.foldl (fun a c => 10 * a + digitVal c) 0

/-- Exact model of a Python float produced from a decimal literal: the value
m times 10 to the e. All arithmetic the scraper performs on such values
(scaling by powers of ten, adding a relative epsilon, comparing) is exact in
this representation, so modelling IEEE doubles by it only idealises rounding
that none of the verified comparisons is close to. -/
structure PyFloat where
  m : Int
  e : Int
deriving DecidableEq

namespace PyFloat

/-- The rational value denoted by the decimal. -/
def toQ (x : PyFloat) : ℚ :=
  (x.m : ℚ) * (10 : ℚ) ^ x.e

/-- Integer mantissa of x rescaled to the (smaller) exponent k. -/
def padTo (x : PyFloat) (k : Int) : Int :=
  x.m * 10 ^ (x.e - k).toNat

/-- Exact addition by rescaling to the smaller exponent. -/
def add (x y : PyFloat) : PyFloat :=
  ⟨x.padTo (min x.e y.e) + y.padTo (min x.e y.e), min x.e y.e⟩

/-- Negation. -/
def neg (x : PyFloat) : PyFloat :=
  ⟨-x.m, x.e⟩

/-- Exact subtraction. -/
def sub (x y : PyFloat) : PyFloat :=
  x.add y.neg

/-- Exact multiplication. -/
def mul (x y : PyFloat) : PyFloat :=
  ⟨x.m * y.m, x.e + y.e⟩

/-- Absolute value. -/
def abs (x : PyFloat) : PyFloat :=
  ⟨|x.m|, x.e⟩

/-- Strict order on denoted values, decided exactly on integers. -/
def blt (x y : PyFloat) : Bool :=
  x.padTo (min x.e y.e) < y.padTo (min x.e y.e)

/-- Comparison with zero (Python: forecast_num != 0). -/
def isZero (x : PyFloat) : Bool :=
  x.m == 0

end PyFloat

/-- Model of Python float(str) restricted to finite decimal literals:
optional sign, decimal mantissa with optional fraction, optional exponent,
surrounding whitespace ignored. Parse failure (the ValueError the code
catches) is the none result. Non-finite literals (inf, nan) and digit-group
underscores are not modelled; the scraper's cell texts never contain them. -/
def pyFloatChars (l0 : List Char) : Option PyFloat :=
  let l1 := pyStripList l0
  let sgn : Int := match l1 with
    | '-' :: _ => -1
    | _ => 1
  let l2 : List Char := match l1 with
    | '-' :: r => r
    | '+' :: r => r
    | _ => l1
  let mant := l2.takeWhile (fun c => !(c == 'e' || c == 'E'))
  let erest := l2.dropWhile (fun c => !(c == 'e' || c == 'E'))
  let ip := mant.takeWhile Char.isDigit
  let mrest := mant.dropWhile Char.isDigit
  let mantVal : Option PyFloat :=
    match mrest with
    | [] => if ip.isEmpty then none else some ⟨(digitsToNat ip : Int), 0⟩
    | '.' :: fp =>
        if fp.all Char.isDigit ∧ ¬(ip.isEmpty ∧ fp.isEmpty) then
          some ⟨(digitsToNat (ip ++ fp) : Int), -(fp.length : Int)⟩
        else none
    | _ => none
  let expVal : Option Int :=
    match erest with
    | [] => some 0
    | _ :: er =>
        let esgn : Int := match er with
          | '-' :: _ => -1
          | _ => 1
        let er2 : List Char := match er with
          | '-' :: r => r
          | '+' :: r => r
          | _ => er
        if ¬ er2.isEmpty ∧ er2.all Char.isDigit then
          some (esgn * (digitsToNat er2 : Int))
        else none
  match mantVal, expVal with
  | some v, some e => some ⟨sgn * v.m, v.e + e⟩
  | _, _ => none

/-- The magnitude suffixes of ffs.parse_numeric_value, in dict order,
with their exact decimal multipliers 1000, 1000000, 10^9, 10^12. -/
def multiplierSuffixes : List (Char × PyFloat) :=
  [('K', ⟨1000, 0⟩), ('M', ⟨1000000, 0⟩),
   ('B', ⟨1000000000, 0⟩), ('T', ⟨1000000000000, 0⟩)]

/-- The cleaning pipeline of ffs.parse_numeric_value before suffix handling:
strip, drop thousands separators, drop HTML and literal no-break spaces, and
drop every percent sign when one is present. -/
def numericPreprocessed (value : String) : List Char :=
  let v1 := (pyStripList value.data).filter (fun c => c ≠ ',')
  let v2 := (stripNbsp v1).filter (fun c => c ≠ '\xa0')
  if v2.contains '%' then v2.filter (fun c => c ≠ '%') else v2

/-- The string finally handed to float(): if some suffix of K/M/B/T occurs in
the uppercased cleaned text, the uppercased text with that suffix removed,
otherwise the cleaned text unchanged. -/
def numericRemainder (value : String) : List Char :=
  let v3 := numericPreprocessed value
  let up := v3.map Char.toUpper
  match multiplierSuffixes.find? (fun p => up.contains p.1) with
  | some (suffix, _) => up.filter (fun c => c ≠ suffix)
  | none => v3

/-- The magnitude multiplier selected by the suffix scan (1 if no suffix). -/
def numericMultiplier (value : String) : PyFloat :=
  match multiplierSuffixes.find?
      (fun p => ((numericPreprocessed value).map Char.toUpper).contains p.1) with
  | some (_, mult) => mult
  | none => ⟨1, 0⟩

/-- ffs.parse_numeric_value: parse a forex-factory numeric cell into a number,
none when empty or unparseable (the function never raises). -/
def parse_numeric_value (value : String) : Option PyFloat :=
  if value = "" || pyStrip value = "" then none
  else (pyFloatChars (numericRemainder value)).map (·.mul (numericMultiplier value))

/-- The float-comparison epsilon of ffs.calculate_outcome, on denoted values:
abs(forecast times 0.0001) for nonzero forecast, else 0.0001. -/
def outcome_epsilon (forecast : ℚ) : ℚ :=
  if forecast ≠ 0 then |forecast * (1 / 10000)| else 1 / 10000

/-- The same epsilon computed exactly on the decimal representation. -/
def outcome_epsilon_dec (f : PyFloat) : PyFloat :=
  if f.isZero then ⟨1, -4⟩ else (f.mul ⟨1, -4⟩).abs

/-- ffs.calculate_outcome: classify actual vs forecast as beat/miss/met, with
the empty string when either value does not parse. -/
def calculate_outcome (actual forecast : String) : String :=
  match parse_numeric_value actual, parse_numeric_value forecast with
  | some a, some f =>
      if (f.add (outcome_epsilon_dec f)).blt a then "beat"
      else if a.blt (f.sub (outcome_epsilon_dec f)) then "miss"
      else "met"
  | _, _ => ""

/-- ASCII alphanumeric test: the character class of the regex the scraper
uses to normalize event names (a-z, A-Z, 0-9). -/
def isAlnumAscii (c : Char) : Bool :=
  ('a' ≤ c && c ≤ 'z') || ('A' ≤ c && c ≤ 'Z') || ('0' ≤ c && c ≤ '9')

/-- First normalization step: every non-alphanumeric character becomes an
underscore. -/
def replaceNonAlnum (l : List Char) : List Char :=
  l.map fun c => if isAlnumAscii c then c else '_'

/-- Second step, worker: collapse runs of underscores to a single underscore;
the flag records whether the previous emitted character was an underscore. -/
def collapseUndGo : Bool → List Char → List Char
  | _, [] => []
  | prevUnd, c :: rest =>
      if c = '_' then
        if prevUnd then collapseUndGo true rest
        else '_' :: collapseUndGo true rest
      else c :: collapseUndGo false rest

/-- Second normalization step: collapse consecutive underscores. -/
def collapseUnd (l : List Char) : List Char :=
  collapseUndGo false l

/-- Third normalization step: strip leading and trailing underscores. -/
def stripUnd (l : List Char) : List Char :=
  (((l.dropWhile (· == '_')).reverse).dropWhile (· == '_')).reverse

/-- ffs.normalize_event_name: replace non-alphanumerics by underscores,
collapse runs of underscores, strip boundary underscores, truncate to 20. -/
def normalize_event_name (name : String) : String :=
  ⟨(stripUnd (collapseUnd (replaceNonAlnum name.data))).take 20⟩

/-- Worker for converting a day-of-year offset (0-based) into month and
day-of-month by scanning the twelve months. -/
def doyToMonthDayGo (y : Nat) : Nat → Nat → Nat → Nat × Nat
  | 0, m, doy => (m, doy + 1)
  | fuel + 1, m, doy =>
      if doy < daysInMonth y m then (m, doy + 1)
      else doyToMonthDayGo y fuel (m + 1) (doy - daysInMonth y m)

/-- Inverse of ordinalDay: year, month and day of the 0-based proleptic
Gregorian day number, following the 400/100/4/1-year era decomposition used
by Python date.fromordinal. -/
def fromOrdinal (n : Nat) : Nat × Nat × Nat :=
  let n400 := n / 146097
  let r400 := n % 146097
  let n100 := r400 / 36524
  let r100 := r400 % 36524
  let n4 := r100 / 1461
  let r4 := r100 % 1461
  let n1 := r4 / 365
  let r1 := r4 % 365
  let year := 400 * n400 + 100 * n100 + 4 * n4 + n1 + 1
  if n1 = 4 ∨ n100 = 4 then (year - 1, 12, 31)
  else
    let md := doyToMonthDayGo year 12 1 r1
    (year, md.1, md.2)

/-- dt.astimezone(TZ_UTC): the same instant with its fields re-expressed in
UTC. Instants of the verified scraper lie far after year 1, so the Nat
truncations below never fire on reachable inputs. -/
def astimezoneUTC (dt : PyDateTime) : PyDateTime :=
  let t := utcSec dt
  let days := (t.fdiv 86400).toNat
  let s := (t.fmod 86400).toNat
  let ymd := fromOrdinal days
  ⟨ymd.1, ymd.2.1, ymd.2.2, s / 3600, (s % 3600) / 60, s % 60, 0⟩

/-- Left-pad a decimal string with zeros to the given width. -/
def padZeros (s : String) (w : Nat) : String :=
  ⟨List.replicate (w - s.length) '0'⟩ ++ s

/-- Two-digit zero-padded field, as produced by strftime. -/
def pad2 (n : Nat) : String :=
  padZeros (toString n) 2

/-- Four-digit zero-padded year, as produced by strftime %Y. -/
def pad4 (n : Nat) : String :=
  padZeros (toString n) 4

/-- strftime %Y-%m-%d of the instant in UTC. -/
def utcDateStr (dt : PyDateTime) : String :=
  pad4 (astimezoneUTC dt).year ++ "-" ++ pad2 (astimezoneUTC dt).month ++ "-" ++
    pad2 (astimezoneUTC dt).day

/-- strftime %H:%M of the instant in UTC. -/
def utcTimeStr (dt : PyDateTime) : String :=
  pad2 (astimezoneUTC dt).hour ++ ":" ++ pad2 (astimezoneUTC dt).minute

/-- ffs.generate_event_id: the dedup key of an event occurrence. -/
def generate_event_id (event_name currency : String) (dt : PyDateTime) : String :=
  normalize_event_name event_name ++ "_" ++ currency ++ "_" ++
    utcDateStr dt ++ "_" ++ utcTimeStr dt

/-- One calendar day forward with fields unchanged otherwise; used to model
Python timedelta day addition, which this agrees with on valid datetimes. -/
def addOneDay (dt : PyDateTime) : PyDateTime :=
  if dt.day < daysInMonth dt.year dt.month then
    { dt with day := dt.day + 1 }
  else if dt.month < 12 then
    { dt with month := dt.month + 1, day := 1 }
  else
    { dt with year := dt.year + 1, month := 1, day := 1 }

/-- dt + timedelta(days = n). -/
def addDays (dt : PyDateTime) : Nat → PyDateTime
  | 0 => dt
  | n + 1 => addOneDay (addDays dt n)

/-- The granularity modes of the date-window planner. In Python the mode is
the string day, week or month, dispatched by equality with a ValueError
fallback for any other string; all call sites in the claims pass one of the
three valid modes, which this type enumerates. -/
inductive Mode where
  | day
  | week
  | month
deriving DecidableEq

/-- date.replace(hour=0, minute=0) - note seconds are left untouched. -/
def replaceHM0 (dt : PyDateTime) : PyDateTime :=
  { dt with hour := 0, minute := 0 }

/-- ffs.get_next_dt: advance the cursor by one day, one week, or to the
first day of the following month (Python divmod(month, 12) arithmetic),
zeroing hour and minute. -/
def get_next_dt (date : PyDateTime) : Mode → PyDateTime
  | .month =>
      { date with
        year := date.year + date.month / 12
        month := date.month % 12 + 1
        day := 1
        hour := 0
        minute := 0 }
  | .week => addDays (replaceHM0 date) 7
  | .day => addDays (replaceHM0 date) 1

/-- ffs.dt_is_complete: the window starting at date has elapsed relative to
the clock reading now (datetime.now in the same zone as date). -/
def dt_is_complete (date now : PyDateTime) (mode : Mode) : Bool :=
  decide (utcSec (get_next_dt date mode) ≤ utcSec now)

/-- ffs.dt_is_start_of_week: isoweekday modulo 7 is zero (Sunday). -/
def dt_is_start_of_week (date : PyDateTime) : Bool :=
  isoweekday date % 7 == 0

/-- ffs.dt_is_start_of_month. -/
def dt_is_start_of_month (date : PyDateTime) : Bool :=
  date.day == 1

/-- ffs.dt_is_today: same calendar date as the clock reading now. The model
uses one clock value for both the naive system clock and the venue clock,
the configuration under which the scraper runs. -/
def dt_is_today (date now : PyDateTime) : Bool :=
  now.year == date.year && now.month == date.month && now.day == date.day

/-- Lowercased month abbreviation of strftime %b. -/
def monthAbbrLower : Nat → String
  | 1 => "jan" | 2 => "feb" | 3 => "mar" | 4 => "apr" | 5 => "may" | 6 => "jun"
  | 7 => "jul" | 8 => "aug" | 9 => "sep" | 10 => "oct" | 11 => "nov" | _ => "dec"

/-- ffs.dt_to_str: month mode gives %b.%Y lowercased; week and day modes give
%b{day}.%Y lowercased with the day unpadded. -/
def dt_to_str (date : PyDateTime) : Mode → String
  | .month => monthAbbrLower date.month ++ "." ++ toString date.year
  | _ => monthAbbrLower date.month ++ toString date.day ++ "." ++ toString date.year

/-- ffs.dt_to_url: choose the page granularity for the cursor date. The
Python function raises ValueError when no branch applies (the caller catches
it as the completed-traversal signal); that outcome is the none result. The
seven-day scan inside the week branch is the for-loop over the days of the
week, which returns the day URL for the first weekday that starts a month
when additionally the cursor's own month is complete. -/
def dt_to_url (date now : PyDateTime) (allow_future : Bool) : Option String :=
  if dt_is_start_of_month date && dt_is_complete date now .month then
    some ("calendar.php?month=" ++ dt_to_str date .month)
  else if dt_is_start_of_week date && dt_is_complete date now .week then
    if (List.range 7).any (fun x =>
        dt_is_start_of_month (addDays date x) && dt_is_complete date now .month) then
      some ("calendar.php?day=" ++ dt_to_str date .day)
    else
      some ("calendar.php?week=" ++ dt_to_str date .week)
  else if dt_is_complete date now .day || dt_is_today date now then
    some ("calendar.php?day=" ++ dt_to_str date .day)
  else if allow_future && decide (utcSec now < utcSec date) then
    some ("calendar.php?day=" ++ dt_to_str date .day)
  else
    none

/-- Python (a - b).days: the floor of the aware-datetime difference in whole
days (timedelta normalizes with days = floor). -/
def timedelta_days (a b : PyDateTime) : Int :=
  (utcSec a - utcSec b).fdiv 86400

/-- The early-wraparound test of scrap: first date on page present and more
than 7 whole days before the originally configured start. -/
def first_date_loop_detected (original_start : PyDateTime)
    (first_date : Option PyDateTime) : Bool :=
  match first_date with
  | some f => decide (7 < timedelta_days original_start f)
  | none => false

/-- The after-page completion check of scrap in calendar-navigation mode
(lines 972-983): stop when the last date on the page reaches the horizon,
or when the first date on the page shows the pagination wrapped around. -/
def loop_boundary_check (original_start end_date : PyDateTime)
    (first_date last_date : Option PyDateTime) : Bool :=
  match last_date with
  | some l =>
      if utcSec end_date ≤ utcSec l then true
      else first_date_loop_detected original_start first_date
  | none => first_date_loop_detected original_start first_date

/-- Retry configuration of ffs.py. -/
def MAX_RETRIES : Nat := 3

/-- Base backoff delay in seconds. -/
def BASE_DELAY : ℚ := 2

/-- Backoff delay cap in seconds. -/
def MAX_DELAY : ℚ := 30

/-- The sleep before re-attempting after failed attempt number attempt:
min(BASE_DELAY * 2^attempt + uniform(0, 1), MAX_DELAY). -/
def backoff_delay (attempt : Nat) (jitter : ℚ) : ℚ :=
  min (BASE_DELAY * 2 ^ attempt + jitter) MAX_DELAY

/-- Worker for retry_with_backoff over the list of attempt numbers: return
the first success; on the last attempt a failure is re-raised. The outcome
function gives the result of executing the wrapped call on each attempt. -/
def retryGo {α : Type} (outcome : Nat → Except String α) : List Nat → Except String α
  | [] => .error ""
  | [a] => outcome a
  | a :: b :: rest =>
      match outcome a with
      | .ok x => .ok x
      | .error _ => retryGo outcome (b :: rest)

/-- ffs.retry_with_backoff: up to MAX_RETRIES attempts; the exception of the
final attempt propagates. -/
def retry_with_backoff {α : Type} (outcome : Nat → Except String α) : Except String α :=
  retryGo outcome (List.range MAX_RETRIES)

/-- What the orchestrator loop does after the fetch (with its retries)
raises: break out of the loop in calendar-navigation mode, or advance the
cursor past the failed window and continue in URL mode. -/
inductive FetchFailAction where
  | terminate
  | advanceAndContinue (next : PyDateTime)
deriving DecidableEq

/-- The except-branch around the page fetch in scrap (lines 845-851). -/
def on_fetch_failure (use_calendar_nav : Bool) (start_date : PyDateTime)
    (mode : Mode) : FetchFailAction :=
  if use_calendar_nav then .terminate
  else .advanceAndContinue (get_next_dt start_date mode)

/-- JSON values as produced by json.loads at the boundary get_start_dt reads
them: numbers are carried as exact decimals (the int/float distinction does
not affect the resume logic, which only rescales by 1000). -/
inductive JVal where
  | jnull
  | jbool (b : Bool)
  | jnum (v : PyFloat)
  | jstr (s : String)
  | jarr (xs : List JVal)
  | jobj (fields : List (String × JVal))

/-- JSON insignificant whitespace. -/
def skipJWs (l : List Char) : List Char :=
  l.dropWhile (fun c => c == ' ' || c == '\t' || c == '\n' || c == '\r')

/-- Value of a hexadecimal digit. -/
def hexVal (c : Char) : Option Nat :=
  if '0' ≤ c ∧ c ≤ '9' then some (c.toNat - '0'.toNat)
  else if 'a' ≤ c ∧ c ≤ 'f' then some (c.toNat - 'a'.toNat + 10)
  else if 'A' ≤ c ∧ c ≤ 'F' then some (c.toNat - 'A'.toNat + 10)
  else none

/-- Parse a JSON string body after the opening quote: content characters and
the remainder after the closing quote. Unicode escapes outside the basic
plane (surrogate pairs) are not recombined; the resume records contain none. -/
def parseJStringBody : List Char → Option (List Char × List Char)
  | [] => none
  | '"' :: rest => some ([], rest)
  | '\\' :: 'u' :: h1 :: h2 :: h3 :: h4 :: rest =>
      match hexVal h1, hexVal h2, hexVal h3, hexVal h4 with
      | some v1, some v2, some v3, some v4 =>
          match parseJStringBody rest with
          | some (cs, r) =>
              some (Char.ofNat (((v1 * 16 + v2) * 16 + v3) * 16 + v4) :: cs, r)
          | none => none
      | _, _, _, _ => none
  | '\\' :: e :: rest =>
      match
        (match e with
         | '"' => some '"'
         | '\\' => some '\\'
         | '/' => some '/'
         | 'b' => some '\x08'
         | 'f' => some '\x0c'
         | 'n' => some '\n'
         | 'r' => some '\r'
         | 't' => some '\t'
         | _ => none) with
      | some c =>
          match parseJStringBody rest with
          | some (cs, r) => some (c :: cs, r)
          | none => none
      | none => none
  | c :: rest =>
      if c.toNat < 32 then none
      else
        match parseJStringBody rest with
        | some (cs, r) => some (c :: cs, r)
        | none => none

/-- Parse a JSON number (the json module's strict grammar): optional minus,
integer part without leading zeros, optional fraction and exponent. Returns
the exact decimal value and the rest of the input. -/
def parseJNumber (l : List Char) : Option (PyFloat × List Char) :=
  let sgn : Int := match l with
    | '-' :: _ => -1
    | _ => 1
  let l1 : List Char := match l with
    | '-' :: r => r
    | _ => l
  let ip := l1.takeWhile Char.isDigit
  let r1 := l1.dropWhile Char.isDigit
  if ip.isEmpty then none
  else if 1 < ip.length ∧ ip.headD '1' = '0' then none
  else
    let fp : Option (List Char × List Char) := match r1 with
      | '.' :: r2 =>
          let f := r2.takeWhile Char.isDigit
          if f.isEmpty then none else some (f, r2.dropWhile Char.isDigit)
      | _ => some ([], r1)
    match fp with
    | none => none
    | some (f, r2) =>
        let ex : Option (Int × List Char) := match r2 with
          | 'e' :: r3 | 'E' :: r3 =>
              let esgn : Int := match r3 with
                | '-' :: _ => -1
                | _ => 1
              let r4 : List Char := match r3 with
                | '-' :: r | '+' :: r => r
                | _ => r3
              let ds := r4.takeWhile Char.isDigit
              if ds.isEmpty then none
              else some (esgn * (digitsToNat ds : Int), r4.dropWhile Char.isDigit)
          | _ => some (0, r2)
        match ex with
        | none => none
        | some (e, r3) =>
            some (⟨sgn * (digitsToNat (ip ++ f) : Int), e - (f.length : Int)⟩, r3)

mutual

/-- Parse one JSON value (fuel-bounded; the fuel is at least the input
length plus one, and each recursive call consumes input). -/
def parseJValue : Nat → List Char → Option (JVal × List Char)
  | 0, _ => none
  | fuel + 1, l =>
      match skipJWs l with
      | 'n' :: 'u' :: 'l' :: 'l' :: rest => some (.jnull, rest)
      | 't' :: 'r' :: 'u' :: 'e' :: rest => some (.jbool true, rest)
      | 'f' :: 'a' :: 'l' :: 's' :: 'e' :: rest => some (.jbool false, rest)
      | '"' :: rest =>
          match parseJStringBody rest with
          | some (cs, rest2) => some (.jstr ⟨cs⟩, rest2)
          | none => none
      | '[' :: rest =>
          match skipJWs rest with
          | ']' :: rest2 => some (.jarr [], rest2)
          | _ =>
              match parseJArrayItems fuel rest with
              | some (xs, rest2) => some (.jarr xs, rest2)
              | none => none
      | '\x7b' :: rest =>
          match skipJWs rest with
          | '\x7d' :: rest2 => some (.jobj [], rest2)
          | _ =>
              match parseJObjectItems fuel rest with
              | some (fs, rest2) => some (.jobj fs, rest2)
              | none => none
      | other =>
          match parseJNumber other with
          | some (v, rest) => some (.jnum v, rest)
          | none => none

/-- Parse comma-separated array items up to the closing bracket. -/
def parseJArrayItems : Nat → List Char → Option (List JVal × List Char)
  | 0, _ => none
  | fuel + 1, l =>
      match parseJValue fuel l with
      | some (v, rest) =>
          match skipJWs rest with
          | ',' :: rest2 =>
              match parseJArrayItems fuel rest2 with
              | some (xs, rest3) => some (v :: xs, rest3)
              | none => none
          | ']' :: rest2 => some ([v], rest2)
          | _ => none
      | none => none

/-- Parse comma-separated key-value members up to the closing brace. -/
def parseJObjectItems : Nat → List Char → Option (List (String × JVal) × List Char)
  | 0, _ => none
  | fuel + 1, l =>
      match skipJWs l with
      | '"' :: rest =>
          match parseJStringBody rest with
          | some (ks, rest2) =>
              match skipJWs rest2 with
              | ':' :: rest3 =>
                  match parseJValue fuel rest3 with
                  | some (v, rest4) =>
                      match skipJWs rest4 with
                      | ',' :: rest5 =>
                          match parseJObjectItems fuel rest5 with
                          | some (fs, rest6) => some ((⟨ks⟩, v) :: fs, rest6)
                          | none => none
                      | '\x7d' :: rest5 => some ([(⟨ks⟩, v)], rest5)
                      | _ => none
                  | none => none
              | _ => none
          | none => none
      | _ => none

end

/-- json.loads at the boundary: parse one value, allow surrounding
whitespace, reject trailing input; none is the JSONDecodeError outcome. -/
def jsonLoads (s : String) : Option JVal :=
  match parseJValue (s.length + 1) s.data with
  | some (v, rest) => if (skipJWs rest).isEmpty then some v else none
  | none => none

/-- Does the needle start the haystack. -/
def startsWithList : List Char → List Char → Bool
  | [], _ => true
  | _ :: _, [] => false
  | a :: as, b :: bs => a == b && startsWithList as bs

/-- Substring containment, as Python's in operator on strings. -/
def containsSubstr (needle : List Char) : List Char → Bool
  | [] => needle.isEmpty
  | c :: rest => startsWithList needle (c :: rest) || containsSubstr needle rest

/-- Python's in operator applied to a json.loads result: key lookup on a
dict, substring test on a str, membership on a list - and a TypeError on
non-iterable values (int, float, bool, None), which get_start_dt does not
catch. -/
def pyContains (v : JVal) (key : String) : Except PyError Bool :=
  match v with
  | .jobj fs => .ok (fs.any (fun p => p.1 == key))
  | .jstr s => .ok (containsSubstr key.data s.data)
  | .jarr xs =>
      .ok (xs.any (fun x => match x with
        | .jstr s => s == key
        | _ => false))
  | _ => .error .typeError

/-- Python subscription record[key] with a string key: dict lookup (last
duplicate wins, as json.loads builds the dict), KeyError when missing, and
TypeError on any non-dict value. -/
def pyGetItem (v : JVal) (key : String) : Except PyError JVal :=
  match v with
  | .jobj fs =>
      match fs.reverse.find? (fun p => p.1 == key) with
      | some p => .ok p.2
      | none => .error .keyError
  | _ => .error .typeError

/-- Python timestamp_ms / 1000 (true division): defined for numbers and
bools (bool is an int subtype), a TypeError otherwise - uncaught in
get_start_dt. -/
def pyDivide1000 (v : JVal) : Except PyError PyFloat :=
  match v with
  | .jnum q => .ok ⟨q.m, q.e - 3⟩
  | .jbool b => .ok ⟨if b then 1 else 0, -3⟩
  | _ => .error .typeError

/-- Floor of an exact decimal to an integer. -/
def floorSec (q : PyFloat) : Int :=
  if 0 ≤ q.e then q.m * 10 ^ q.e.toNat else q.m.fdiv (10 ^ (-q.e).toNat)

/-- Seconds from 0001-01-01 to the Unix epoch 1970-01-01 (719162 days). -/
def epochShiftSec : Int := 62135596800

/-- datetime.fromtimestamp(sec, tz=TZ_UTC), at second precision (the resume
logic consumes no sub-second part). Out-of-range timestamps raise ValueError
in the model; CPython may raise OverflowError instead for astronomically
large inputs, a distinction no verified property depends on. -/
def fromtimestampUTC (q : PyFloat) : Except PyError PyDateTime :=
  let total : Int := floorSec q + epochShiftSec
  if total < 0 then .error .valueError
  else
    let days := (total.fdiv 86400).toNat
    let rem := (total.fmod 86400).toNat
    let ymd := fromOrdinal days
    if ymd.1 < 1 ∨ 9999 < ymd.1 then .error .valueError
    else .ok ⟨ymd.1, ymd.2.1, ymd.2.2, rem / 3600, rem % 3600 / 60, rem % 60, 0⟩

/-- datetime.strptime(s, the %Y-%m-%d %H:%M:%S layout) followed by
replace(tzinfo=TZ_UTC), for the canonical zero-padded form the scraper
writes; any other shape is a parse failure (ValueError). -/
def strptimeYmdHms (s : String) : Option PyDateTime :=
  match s.data with
  | [y1, y2, y3, y4, '-', m1, m2, '-', d1, d2, ' ',
     h1, h2, ':', i1, i2, ':', s1, s2] =>
      if [y1, y2, y3, y4, m1, m2, d1, d2, h1, h2, i1, i2, s1, s2].all Char.isDigit then
        let yy := digitsToNat [y1, y2, y3, y4]
        let mo := digitsToNat [m1, m2]
        let dd := digitsToNat [d1, d2]
        let hh := digitsToNat [h1, h2]
        let mi := digitsToNat [i1, i2]
        let ss := digitsToNat [s1, s2]
        if 1 ≤ yy ∧ yy ≤ 9999 ∧ 1 ≤ mo ∧ mo ≤ 12 ∧ 1 ≤ dd ∧
            dd ≤ daysInMonth yy mo ∧ hh ≤ 23 ∧ mi ≤ 59 ∧ ss ≤ 59 then
          some ⟨yy, mo, dd, hh, mi, ss, 0⟩
        else none
      else none
  | _ => none

/-- The tail read of get_start_dt: seek to the end, scan backwards from the
second-to-last byte for a newline, read one line from just after it (or from
the start when the scan reaches position zero), and strip it. -/
def lastLineOf (content : String) : String :=
  let cs := content.data
  let n := cs.length
  let cut := ((List.range (n - 1)).reverse).find?
    (fun i => decide (1 ≤ i) && (cs.getD i ' ' == '\n'))
  let tail := match cut with
    | some i => cs.drop (i + 1)
    | none => cs
  pyStrip ⟨tail.takeWhile (fun c => c != '\n')⟩

/-- The fixed resume origin: 2007-01-01 00:00 in the venue timezone. -/
def resume_origin (venueOffsetMin : Int) : PyDateTime :=
  ⟨2007, 1, 1, 0, 0, 0, venueOffsetMin⟩

/-- The body of get_start_dt's try block: some dt is an explicit return,
none is falling through to the origin fallback, and errors are the raised
exceptions. -/
def get_start_dt_try (content : String) (venueOffsetMin : Int) :
    Except PyError (Option PyDateTime) :=
  if content.length < 2 then .ok (some (resume_origin venueOffsetMin))
  else
    let ll := lastLineOf content
    if ll = "" then .ok none
    else
      match jsonLoads ll with
      | none => .error .jsonDecodeError
      | some record => do
          let b ← pyContains record "timestamp_utc"
          if b then
            let ms ← pyGetItem record "timestamp_utc"
            let q ← pyDivide1000 ms
            let dt ← fromtimestampUTC q
            return some dt
          else
            let b2 ← pyContains record "datetime_utc"
            if b2 then
              let v ← pyGetItem record "datetime_utc"
              match v with
              | .jstr str =>
                  match strptimeYmdHms str with
                  | some dt => return some dt
                  | none => .error .valueError
              | _ => .error .typeError
            else
              return none

/-- ffs.get_start_dt over the sink contents (none: the file is absent). The
except clause catches exactly JSONDecodeError, KeyError and ValueError;
any other exception propagates out of the function. -/
def get_start_dt (sink : Option String) (venueOffsetMin : Int) :
    Except PyError PyDateTime :=
  match sink with
  | none => .ok (resume_origin venueOffsetMin)
  | some content =>
      match get_start_dt_try content venueOffsetMin with
      | .ok (some dt) => .ok dt
      | .ok none => .ok (resume_origin venueOffsetMin)
      | .error .valueError => .ok (resume_origin venueOffsetMin)
      | .error .keyError => .ok (resume_origin venueOffsetMin)
      | .error .jsonDecodeError => .ok (resume_origin venueOffsetMin)
      | .error e => .error e

end FFS

namespace FFS

/-- Helper: fixing the UTC hour decides all three session-range predicates. -/
theorem session_ranges_of_hour (dt : PyDateTime) (h : Int)
    (hh : utcHourOf dt = h) :
    (in_sydney dt ↔ (21 ≤ h ∨ h < 6)) ∧
    (in_london dt ↔ (7 ≤ h ∧ h < 16)) ∧
    (in_new_york dt ↔ (12 ≤ h ∧ h < 21)) := by
  subst hh
  exact ⟨Iff.rfl, Iff.rfl, Iff.rfl⟩

/-- C10: at UTC hour exactly 21 the New York range (12 ≤ h < 21) excludes the
instant while the Sydney/Asian range (h ≥ 21 or h < 6) includes it, and no
overlap or earlier branch fires, so get_trading_session returns "asian" -
never "new_york" and never "off_hours". -/
theorem c10_hour21_is_asian (dt : PyDateTime) (h21 : utcHourOf dt = 21) :
    get_trading_session dt = "asian" ∧
    get_trading_session dt ≠ "new_york" ∧
    get_trading_session dt ≠ "off_hours" := by
  have hs : get_trading_session dt = "asian" := by
    unfold get_trading_session
    rw [if_neg, if_neg, if_neg, if_neg, if_pos]
    · exact Or.inl (by rw [h21])
    · unfold in_new_york; rw [h21]; omega
    · unfold in_london; rw [h21]; omega
    · unfold in_sydney in_london; rw [h21]; omega
    · unfold in_london in_new_york; rw [h21]; omega
  refine ⟨hs, ?_, ?_⟩ <;> rw [hs] <;> decide

/-- C10 witness: a concrete instant at 21:00 UTC (2024-01-15 21:00 UTC). -/
theorem c10_hour21_witness :
    utcHourOf ⟨2024, 1, 15, 21, 0, 0, 0⟩ = 21 ∧
    get_trading_session ⟨2024, 1, 15, 21, 0, 0, 0⟩ = "asian" := by
  refine ⟨by decide, (c10_hour21_is_asian ⟨2024, 1, 15, 21, 0, 0, 0⟩ (by decide)).1⟩

/-- C7 counterexample: at UTC hour 17 the code returns "new_york", not the
"off_hours" asserted by the claim (hour 17 lies inside the New York range
12:00-21:00 that the code itself declares). Concrete instant:
2024-01-15 17:00 UTC. -/
theorem c7_hour17_counterexample :
    utcHourOf ⟨2024, 1, 15, 17, 0, 0, 0⟩ = 17 ∧
    get_trading_session ⟨2024, 1, 15, 17, 0, 0, 0⟩ = "new_york" ∧
    get_trading_session ⟨2024, 1, 15, 17, 0, 0, 0⟩ ≠ "off_hours" := by
  refine ⟨by decide, by decide, by decide⟩

/-- C7 (amended): get_trading_session classifies by UTC hour with overlaps
checked before single sessions, London-NewYork first, then Asian-London, then
the single sessions, else off_hours; hour 13 gives london_ny_overlap, hour 22
gives asian, hour 3 gives asian — and hour 17 gives new_york (not off_hours,
as the claim stated). -/
theorem c7_session_classifier (dt : PyDateTime) :
    (in_london dt ∧ in_new_york dt → get_trading_session dt = "london_ny_overlap") ∧
    (¬(in_london dt ∧ in_new_york dt) → in_sydney dt ∧ in_london dt →
      get_trading_session dt = "asian_london_overlap") ∧
    (¬(in_london dt ∧ in_new_york dt) → ¬(in_sydney dt ∧ in_london dt) →
      in_london dt → get_trading_session dt = "london") ∧
    (¬(in_london dt ∧ in_new_york dt) → ¬(in_sydney dt ∧ in_london dt) →
      ¬ in_london dt → in_new_york dt → get_trading_session dt = "new_york") ∧
    (¬(in_london dt ∧ in_new_york dt) → ¬(in_sydney dt ∧ in_london dt) →
      ¬ in_london dt → ¬ in_new_york dt → in_sydney dt →
      get_trading_session dt = "asian") ∧
    (¬ in_sydney dt → ¬ in_london dt → ¬ in_new_york dt →
      get_trading_session dt = "off_hours") ∧
    (utcHourOf dt = 13 → get_trading_session dt = "london_ny_overlap") ∧
    (utcHourOf dt = 22 → get_trading_session dt = "asian") ∧
    (utcHourOf dt = 3 → get_trading_session dt = "asian") ∧
    (utcHourOf dt = 17 → get_trading_session dt = "new_york") := by
  unfold get_trading_session
  refine ⟨?_, ?_, ?_, ?_, ?_, ?_, ?_, ?_, ?_, ?_⟩
  · intro h; rw [if_pos h]
  · intro h1 h2; rw [if_neg h1, if_pos h2]
  · intro h1 h2 h3; rw [if_neg h1, if_neg h2, if_pos h3]
  · intro h1 h2 h3 h4; rw [if_neg h1, if_neg h2, if_neg h3, if_pos h4]
  · intro h1 h2 h3 h4 h5
    rw [if_neg h1, if_neg h2, if_neg h3, if_neg h4, if_pos h5]
  · intro h1 h2 h3
    rw [if_neg, if_neg, if_neg h2, if_neg h3, if_neg h1] <;> tauto
  · intro hh
    rw [if_pos]
    simp only [in_sydney, in_london, in_new_york, hh]
    omega
  · intro hh
    rw [if_neg, if_neg, if_neg, if_neg, if_pos] <;>
      simp only [in_sydney, in_london, in_new_york, hh] <;> omega
  · intro hh
    rw [if_neg, if_neg, if_neg, if_neg, if_pos] <;>
      simp only [in_sydney, in_london, in_new_york, hh] <;> omega
  · intro hh
    rw [if_neg, if_neg, if_neg, if_pos] <;>
      simp only [in_sydney, in_london, in_new_york, hh] <;> omega

/-- Helper: the boolean leap-year rule unfolded to arithmetic. -/
theorem isLeapYear_iff (y : Nat) :
    isLeapYear y = true ↔ ((y % 4 = 0 ∧ ¬ y % 100 = 0) ∨ y % 400 = 0) := by
  unfold isLeapYear
  simp [Bool.or_eq_true, Bool.and_eq_true, beq_iff_eq, bne_iff_ne]

/-- Helper: every month has at least one day. -/
theorem daysInMonth_pos (y m : Nat) : 1 ≤ daysInMonth y m := by
  unfold daysInMonth
  split_ifs <;> omega

/-- Helper: cumulative days before the next month. -/
theorem daysBeforeMonth_succ (y m : Nat) (h1 : 1 ≤ m) (h2 : m ≤ 11) :
    daysBeforeMonth y (m + 1) = daysBeforeMonth y m + daysInMonth y m := by
  interval_cases m <;> cases hl : isLeapYear y <;>
    simp [daysBeforeMonth, daysInMonth, hl]

/-- Helper: the calendar successor preserves the time fields and zone. -/
theorem addOneDay_time (dt : PyDateTime) :
    (addOneDay dt).hour = dt.hour ∧ (addOneDay dt).minute = dt.minute ∧
    (addOneDay dt).second = dt.second ∧ (addOneDay dt).tzOffsetMin = dt.tzOffsetMin := by
  unfold addOneDay
  split_ifs <;> exact ⟨rfl, rfl, rfl, rfl⟩

/-- Helper: December has 31 days. -/
theorem daysInMonth_12 (y : Nat) : daysInMonth y 12 = 31 := by
  unfold daysInMonth
  norm_num

set_option maxHeartbeats 1000000 in
/-- Helper: the calendar successor advances the day number by one. -/
theorem addOneDay_ordinal (dt : PyDateTime) (h : dt.Valid) :
    ordinalDay (addOneDay dt) = ordinalDay dt + 1 := by
  obtain ⟨y, mo, d, hh, mi, s, off⟩ := dt
  unfold PyDateTime.Valid at h
  dsimp only at h
  obtain ⟨hy, hm1, hm2, hd1, hd2, _⟩ := h
  unfold addOneDay
  dsimp only
  split_ifs with h1 h2
  · unfold ordinalDay
    dsimp only
    omega
  · have h1' : daysInMonth y mo ≤ d := not_lt.mp h1
    unfold ordinalDay
    dsimp only
    rw [daysBeforeMonth_succ y mo hm1 (by omega)]
    omega
  · have h1' : daysInMonth y mo ≤ d := not_lt.mp h1
    have hm : mo = 12 := by omega
    subst hm
    have hdim := daysInMonth_12 y
    have hd : d = 31 := by omega
    subst hd
    unfold ordinalDay daysBeforeMonth
    dsimp only
    cases hl : isLeapYear y
    · have hla := mt (isLeapYear_iff y).mpr (by rw [hl]; simp)
      rw [if_neg (show ¬(3 ≤ 1 ∧ isLeapYear (y + 1) = true) by simp),
        if_neg (show ¬(3 ≤ 12 ∧ false = true) by simp)]
      simp only [Nat.add_sub_cancel]
      omega
    · have hla := (isLeapYear_iff y).mp hl
      rw [if_neg (show ¬(3 ≤ 1 ∧ isLeapYear (y + 1) = true) by simp),
        if_pos (show 3 ≤ 12 ∧ true = true from ⟨by norm_num, rfl⟩)]
      simp only [Nat.add_sub_cancel]
      omega

/-- Helper: the calendar successor preserves validity. -/
theorem addOneDay_valid (dt : PyDateTime) (h : dt.Valid) : (addOneDay dt).Valid := by
  obtain ⟨y, mo, d, hh, mi, s, off⟩ := dt
  unfold PyDateTime.Valid at h ⊢
  dsimp only at h
  obtain ⟨hy, hm1, hm2, hd1, hd2, hhh, hmm, hss⟩ := h
  unfold addOneDay
  dsimp only
  split_ifs with h1 h2
  all_goals dsimp only
  · exact ⟨hy, hm1, hm2, by omega, h1, hhh, hmm, hss⟩
  · exact ⟨hy, by omega, by omega, by omega,
      daysInMonth_pos y (mo + 1), hhh, hmm, hss⟩
  · exact ⟨by omega, by omega, by omega, by omega,
      daysInMonth_pos (y + 1) 1, hhh, hmm, hss⟩

/-- Helper: adding n days advances the day number by n, preserving validity,
time-of-day fields and zone. -/
theorem addDays_spec (dt : PyDateTime) (h : dt.Valid) (n : Nat) :
    ordinalDay (addDays dt n) = ordinalDay dt + n ∧ (addDays dt n).Valid ∧
    (addDays dt n).hour = dt.hour ∧ (addDays dt n).minute = dt.minute ∧
    (addDays dt n).second = dt.second ∧ (addDays dt n).tzOffsetMin = dt.tzOffsetMin := by
  induction n with
  | zero => exact ⟨rfl, h, rfl, rfl, rfl, rfl⟩
  | succ n ih =>
      obtain ⟨iho, ihv, ihh, ihm, ihs, ihz⟩ := ih
      have ht := addOneDay_time (addDays dt n)
      refine ⟨?_, addOneDay_valid _ ihv, ?_, ?_, ?_, ?_⟩
      · rw [show addDays dt (n + 1) = addOneDay (addDays dt n) from rfl,
          addOneDay_ordinal _ ihv, iho]
        omega
      · rw [show addDays dt (n + 1) = addOneDay (addDays dt n) from rfl, ht.1, ihh]
      · rw [show addDays dt (n + 1) = addOneDay (addDays dt n) from rfl, ht.2.1, ihm]
      · rw [show addDays dt (n + 1) = addOneDay (addDays dt n) from rfl, ht.2.2.1, ihs]
      · rw [show addDays dt (n + 1) = addOneDay (addDays dt n) from rfl, ht.2.2.2, ihz]

/-- Helper: zeroing hour and minute keeps the date and validity. -/
theorem replaceHM0_spec (dt : PyDateTime) (h : dt.Valid) :
    ordinalDay (replaceHM0 dt) = ordinalDay dt ∧ (replaceHM0 dt).Valid ∧
    (replaceHM0 dt).hour = 0 ∧ (replaceHM0 dt).minute = 0 ∧
    (replaceHM0 dt).second = dt.second ∧ (replaceHM0 dt).tzOffsetMin = dt.tzOffsetMin := by
  obtain ⟨y, mo, d, hh, mi, s, off⟩ := dt
  unfold PyDateTime.Valid at h
  dsimp only at h
  obtain ⟨hy, hm1, hm2, hd1, hd2, hhh, hmm, hss⟩ := h
  refine ⟨rfl, ?_, rfl, rfl, rfl, rfl⟩
  unfold replaceHM0 PyDateTime.Valid
  dsimp only
  exact ⟨hy, hm1, hm2, hd1, hd2, by omega, by omega, hss⟩

set_option maxHeartbeats 4000000 in
/-- Helper: the month step of get_next_dt moves the day number to the first
day of the following month. -/
theorem get_next_dt_month_ordinal (dt : PyDateTime) (h : dt.Valid) :
    ordinalDay (get_next_dt dt Mode.month) =
      ordinalDay dt + (daysInMonth dt.year dt.month - dt.day) + 1 := by
  obtain ⟨y, mo, d, hh, mi, s, off⟩ := dt
  unfold PyDateTime.Valid at h
  dsimp only at h
  obtain ⟨hy, hm1, hm2, hd1, hd2, _⟩ := h
  unfold get_next_dt ordinalDay
  dsimp only
  interval_cases mo
  · have hst := daysBeforeMonth_succ y 1 (by omega) (by omega)
    norm_num at hst ⊢
    omega
  · have hst := daysBeforeMonth_succ y 2 (by omega) (by omega)
    norm_num at hst ⊢
    omega
  · have hst := daysBeforeMonth_succ y 3 (by omega) (by omega)
    norm_num at hst ⊢
    omega
  · have hst := daysBeforeMonth_succ y 4 (by omega) (by omega)
    norm_num at hst ⊢
    omega
  · have hst := daysBeforeMonth_succ y 5 (by omega) (by omega)
    norm_num at hst ⊢
    omega
  · have hst := daysBeforeMonth_succ y 6 (by omega) (by omega)
    norm_num at hst ⊢
    omega
  · have hst := daysBeforeMonth_succ y 7 (by omega) (by omega)
    norm_num at hst ⊢
    omega
  · have hst := daysBeforeMonth_succ y 8 (by omega) (by omega)
    norm_num at hst ⊢
    omega
  · have hst := daysBeforeMonth_succ y 9 (by omega) (by omega)
    norm_num at hst ⊢
    omega
  · have hst := daysBeforeMonth_succ y 10 (by omega) (by omega)
    norm_num at hst ⊢
    omega
  · have hst := daysBeforeMonth_succ y 11 (by omega) (by omega)
    norm_num at hst ⊢
    omega
  · have hdim := daysInMonth_12 y
    rw [show (12 : Nat) / 12 = 1 from by norm_num,
      show (12 : Nat) % 12 + 1 = 1 from by norm_num]
    unfold daysBeforeMonth
    dsimp only
    cases hl : isLeapYear y
    · have hla := mt (isLeapYear_iff y).mpr (by rw [hl]; simp)
      rw [if_neg (show ¬(3 ≤ 1 ∧ isLeapYear (y + 1) = true) by simp),
        if_neg (show ¬(3 ≤ 12 ∧ false = true) by simp)]
      simp only [Nat.add_sub_cancel]
      omega
    · have hla := (isLeapYear_iff y).mp hl
      rw [if_neg (show ¬(3 ≤ 1 ∧ isLeapYear (y + 1) = true) by simp),
        if_pos (show 3 ≤ 12 ∧ true = true from ⟨by norm_num, rfl⟩)]
      simp only [Nat.add_sub_cancel]
      omega

/-- Helper: the rescaled mantissa times ten to the common exponent recovers
the denoted value. -/
theorem PyFloat.toQ_padTo (x : PyFloat) (k : Int) (h : k ≤ x.e) :
    ((x.padTo k : ℚ)) * (10 : ℚ) ^ k = x.toQ := by
  unfold PyFloat.padTo PyFloat.toQ
  push_cast
  rw [mul_assoc]
  congr 1
  rw [← zpow_natCast (10 : ℚ) (x.e - k).toNat, Int.toNat_of_nonneg (by omega),
    ← zpow_add₀ (by norm_num : (10 : ℚ) ≠ 0)]
  congr 1
  omega

/-- Helper: decimal addition is exact. -/
theorem PyFloat.toQ_add (x y : PyFloat) : (x.add y).toQ = x.toQ + y.toQ := by
  rw [← PyFloat.toQ_padTo x (min x.e y.e) (min_le_left _ _),
    ← PyFloat.toQ_padTo y (min x.e y.e) (min_le_right _ _)]
  unfold PyFloat.add PyFloat.toQ
  push_cast
  ring

/-- Helper: decimal negation is exact. -/
theorem PyFloat.toQ_neg (x : PyFloat) : x.neg.toQ = -x.toQ := by
  unfold PyFloat.neg PyFloat.toQ
  push_cast
  ring

/-- Helper: decimal subtraction is exact. -/
theorem PyFloat.toQ_sub (x y : PyFloat) : (x.sub y).toQ = x.toQ - y.toQ := by
  unfold PyFloat.sub
  rw [PyFloat.toQ_add, PyFloat.toQ_neg]
  ring

/-- Helper: decimal multiplication is exact. -/
theorem PyFloat.toQ_mul (x y : PyFloat) : (x.mul y).toQ = x.toQ * y.toQ := by
  unfold PyFloat.mul PyFloat.toQ
  push_cast
  rw [zpow_add₀ (by norm_num : (10 : ℚ) ≠ 0)]
  ring

/-- Helper: decimal absolute value is exact. -/
theorem PyFloat.toQ_abs (x : PyFloat) : x.abs.toQ = |x.toQ| := by
  unfold PyFloat.abs PyFloat.toQ
  rw [abs_mul, abs_of_pos (a := (10 : ℚ) ^ x.e) (by positivity)]
  push_cast
  ring

/-- Helper: the decimal comparison decides the order of denoted values. -/
theorem PyFloat.blt_iff (x y : PyFloat) : x.blt y = true ↔ x.toQ < y.toQ := by
  rw [show x.blt y =
      decide (x.padTo (min x.e y.e) < y.padTo (min x.e y.e)) from rfl,
    decide_eq_true_eq,
    ← PyFloat.toQ_padTo x (min x.e y.e) (min_le_left _ _),
    ← PyFloat.toQ_padTo y (min x.e y.e) (min_le_right _ _),
    mul_lt_mul_right (by positivity : (0 : ℚ) < (10 : ℚ) ^ min x.e y.e)]
  exact_mod_cast Iff.rfl

/-- Helper: the zero test decides whether the denoted value is zero. -/
theorem PyFloat.isZero_iff (x : PyFloat) : x.isZero = true ↔ x.toQ = 0 := by
  unfold PyFloat.isZero PyFloat.toQ
  rw [beq_iff_eq]
  constructor
  · intro h
    rw [h]
    simp
  · intro h
    rcases mul_eq_zero.mp h with h | h
    · exact_mod_cast h
    · exact absurd h (zpow_ne_zero _ (by norm_num))

/-- Helper: ten to the minus four denotes one ten-thousandth. -/
theorem PyFloat.toQ_epsilon_unit : PyFloat.toQ ⟨1, -4⟩ = 1 / 10000 := by
  unfold PyFloat.toQ
  rw [show ((-4 : Int)) = -(4 : Nat) from rfl, zpow_neg, zpow_natCast]
  norm_num

/-- Helper: the exact decimal epsilon denotes the code's relative epsilon. -/
theorem outcome_epsilon_dec_toQ (f : PyFloat) :
    (outcome_epsilon_dec f).toQ = outcome_epsilon f.toQ := by
  unfold outcome_epsilon_dec outcome_epsilon
  by_cases hz : f.isZero = true
  · rw [if_pos hz, if_neg (fun h => h ((PyFloat.isZero_iff f).mp hz)),
      PyFloat.toQ_epsilon_unit]
  · rw [if_neg hz, if_pos (fun h => hz ((PyFloat.isZero_iff f).mpr h)),
      PyFloat.toQ_abs, PyFloat.toQ_mul, PyFloat.toQ_epsilon_unit]

/-- C6: parse_numeric_value is total (modelled by its Option result: every
failure mode is the none value, not an exception), returns none for empty or
whitespace-only input and whenever the cleaned remainder is not numeric, and
on the spec examples: 2.5M parses to the value 2500000, -0.5% parses to the
value -0.5 (the percent sign is stripped, not a scale factor), while the
empty string and a non-numeric string give none. -/
theorem c6_parse_numeric_value :
    parse_numeric_value "2.5M" = some ⟨25000000, -1⟩ ∧
    PyFloat.toQ ⟨25000000, -1⟩ = 2500000 ∧
    parse_numeric_value "-0.5%" = some ⟨-5, -1⟩ ∧
    PyFloat.toQ ⟨-5, -1⟩ = -(1 / 2) ∧
    parse_numeric_value "" = none ∧
    parse_numeric_value "abc" = none ∧
    (∀ s : String, pyStrip s = "" → parse_numeric_value s = none) ∧
    (∀ s : String, pyFloatChars (numericRemainder s) = none →
      parse_numeric_value s = none) ∧
    (∀ s : String, s ≠ "" → pyStrip s ≠ "" →
      parse_numeric_value s =
        (pyFloatChars (numericRemainder s)).map (·.mul (numericMultiplier s))) := by
  refine ⟨by decide, ?_, by decide, ?_, by decide, by decide, ?_, ?_, ?_⟩
  · unfold PyFloat.toQ
    rw [show ((-1 : Int)) = -(1 : Nat) from rfl, zpow_neg, zpow_natCast]
    norm_num
  · unfold PyFloat.toQ
    rw [show ((-1 : Int)) = -(1 : Nat) from rfl, zpow_neg, zpow_natCast]
    norm_num
  · intro s h
    simp [parse_numeric_value, h]
  · intro s h
    by_cases he : (s = "" || pyStrip s = "") = true
    · simp [parse_numeric_value, he]
    · simp only [parse_numeric_value]
      rw [if_neg he, h]
      rfl
  · intro s h1 h2
    simp [parse_numeric_value, h1, h2]

/-- C6 witness: the universally quantified parts of the statement evaluated
at concrete inputs (a whitespace-only cell and a non-numeric cell). -/
theorem c6_parse_numeric_value_witness :
    parse_numeric_value " " = none ∧
    parse_numeric_value "x7" =
      (pyFloatChars (numericRemainder "x7")).map (·.mul (numericMultiplier "x7")) :=
  ⟨c6_parse_numeric_value.2.2.2.2.2.2.1 " " (by decide),
   c6_parse_numeric_value.2.2.2.2.2.2.2.2 "x7" (by decide) (by decide)⟩

/-- C5: when both strings parse, calculate_outcome classifies beat/miss/met
against the relative epsilon (absolute value of forecast times 1/10000, or
1/10000 when the forecast is zero), comparing the denoted values; when either
fails to parse the result is the indeterminate empty string; and the four
spec examples hold. -/
theorem c5_calculate_outcome :
    (∀ a f : String, ∀ x y : PyFloat, parse_numeric_value a = some x →
      parse_numeric_value f = some y →
      calculate_outcome a f =
        (if x.toQ > y.toQ + outcome_epsilon y.toQ then "beat"
         else if x.toQ < y.toQ - outcome_epsilon y.toQ then "miss" else "met")) ∧
    (∀ a f : String, parse_numeric_value a = none ∨ parse_numeric_value f = none →
      calculate_outcome a f = "") ∧
    (∀ q : ℚ, q ≠ 0 → outcome_epsilon q = |q| * (1 / 10000)) ∧
    outcome_epsilon 0 = 1 / 10000 ∧
    calculate_outcome "3.2%" "3.0%" = "beat" ∧
    calculate_outcome "2.9%" "3.0%" = "miss" ∧
    calculate_outcome "3.0%" "3.0%" = "met" ∧
    calculate_outcome "" "3.0%" = "" := by
  refine ⟨?_, ?_, ?_, by rw [outcome_epsilon, if_neg (fun h => h rfl)],
    by decide, by decide, by decide, by decide⟩
  · intro a f x y h1 h2
    have hbeat : (y.add (outcome_epsilon_dec y)).blt x = true ↔
        x.toQ > y.toQ + outcome_epsilon y.toQ := by
      rw [PyFloat.blt_iff, PyFloat.toQ_add, outcome_epsilon_dec_toQ]
    have hmiss : x.blt (y.sub (outcome_epsilon_dec y)) = true ↔
        x.toQ < y.toQ - outcome_epsilon y.toQ := by
      rw [PyFloat.blt_iff, PyFloat.toQ_sub, outcome_epsilon_dec_toQ]
    simp only [calculate_outcome, h1, h2]
    by_cases hb : (y.add (outcome_epsilon_dec y)).blt x = true
    · rw [if_pos hb, if_pos (hbeat.mp hb)]
    · rw [if_neg hb, if_neg (fun h => hb (hbeat.mpr h))]
      by_cases hm : x.blt (y.sub (outcome_epsilon_dec y)) = true
      · rw [if_pos hm, if_pos (hmiss.mp hm)]
      · rw [if_neg hm, if_neg (fun h => hm (hmiss.mpr h))]
  · intro a f h
    rcases h with h | h
    · simp [calculate_outcome, h]
    · cases h1 : parse_numeric_value a <;> simp [calculate_outcome, h1, h]
  · intro q h
    rw [outcome_epsilon, if_pos h, abs_mul]
    norm_num

/-- C5 witness: the quantified classification rule evaluated at the concrete
beat example, with the parsed decimal values made explicit. -/
theorem c5_calculate_outcome_witness :
    parse_numeric_value "3.2%" = some ⟨32, -1⟩ ∧
    parse_numeric_value "3.0%" = some ⟨30, -1⟩ ∧
    calculate_outcome "3.2%" "3.0%" =
      (if PyFloat.toQ ⟨32, -1⟩ >
          PyFloat.toQ ⟨30, -1⟩ + outcome_epsilon (PyFloat.toQ ⟨30, -1⟩) then "beat"
       else if PyFloat.toQ ⟨32, -1⟩ <
          PyFloat.toQ ⟨30, -1⟩ - outcome_epsilon (PyFloat.toQ ⟨30, -1⟩) then "miss"
       else "met") :=
  ⟨by decide, by decide,
   c5_calculate_outcome.1 "3.2%" "3.0%" ⟨32, -1⟩ ⟨30, -1⟩ (by decide) (by decide)⟩

/-- C1: generate_event_id is exactly normalized-name, currency, UTC date and
UTC time joined by single underscores, where the normalized name replaces
every non-alphanumeric character by an underscore, collapses runs of
underscores, strips boundary underscores and truncates to at most 20
characters; and the id depends only on (name, currency, UTC date, UTC time),
so equal components give equal ids across runs. -/
theorem c1_generate_event_id (n c : String) (dt dt' : PyDateTime)
    (hd : utcDateStr dt = utcDateStr dt') (ht : utcTimeStr dt = utcTimeStr dt') :
    generate_event_id n c dt =
      (⟨(stripUnd (collapseUnd (replaceNonAlnum n.data))).take 20⟩ : String) ++ "_" ++
        c ++ "_" ++ utcDateStr dt ++ "_" ++ utcTimeStr dt ∧
    (normalize_event_name n).length ≤ 20 ∧
    generate_event_id n c dt = generate_event_id n c dt' := by
  refine ⟨rfl, ?_, ?_⟩
  · have h1 : (normalize_event_name n).length =
        ((stripUnd (collapseUnd (replaceNonAlnum n.data))).take 20).length := rfl
    rw [h1, List.length_take]
    exact min_le_left _ _
  · unfold generate_event_id
    rw [hd, ht]

/-- C1 witness: the id of the docstring example event, generated from the
same instant presented in two timezones (09:30 at UTC-5 and 14:30 at UTC). -/
theorem c1_generate_event_id_witness :
    generate_event_id "CPI m/m" "USD" ⟨2024, 1, 15, 9, 30, 0, -300⟩ =
      "CPI_m_m_USD_2024-01-15_14:30" ∧
    generate_event_id "CPI m/m" "USD" ⟨2024, 1, 15, 9, 30, 0, -300⟩ =
      generate_event_id "CPI m/m" "USD" ⟨2024, 1, 15, 14, 30, 0, 0⟩ := by
  have h := c1_generate_event_id "CPI m/m" "USD" ⟨2024, 1, 15, 9, 30, 0, -300⟩
    ⟨2024, 1, 15, 14, 30, 0, 0⟩ (by decide) (by decide)
  exact ⟨by rw [h.1]; decide, h.2.2⟩

/-- Helper: a week URL and a day URL never coincide. -/
theorem week_day_url_ne (s : String) :
    "calendar.php?week=" ++ s ≠ "calendar.php?day=" ++ s := by
  intro heq
  have hlen := congrArg String.length heq
  rw [String.length_append, String.length_append] at hlen
  have h1 : ("calendar.php?week=" : String).length = 18 := rfl
  have h2 : ("calendar.php?day=" : String).length = 17 := rfl
  omega

/-- C2 counterexample: cursor Sunday 2024-06-30 with clock 2024-07-08. The
week is complete and contains the month start 2024-07-01, but July itself has
not elapsed, so under the claim's reading (some weekday begins a month that
has itself elapsed) week granularity should be chosen; the code nevertheless
returns the day URL, because its loop tests completeness of the cursor's own
month (June), not of the month the weekday begins. -/
theorem c2_dt_to_url_counterexample :
    dt_is_start_of_week ⟨2024, 6, 30, 0, 0, 0, 0⟩ = true ∧
    dt_is_complete ⟨2024, 6, 30, 0, 0, 0, 0⟩ ⟨2024, 7, 8, 0, 0, 0, 0⟩ Mode.week = true ∧
    ¬(dt_is_start_of_month ⟨2024, 6, 30, 0, 0, 0, 0⟩ = true ∧
      dt_is_complete ⟨2024, 6, 30, 0, 0, 0, 0⟩ ⟨2024, 7, 8, 0, 0, 0, 0⟩ Mode.month = true) ∧
    dt_to_url ⟨2024, 6, 30, 0, 0, 0, 0⟩ ⟨2024, 7, 8, 0, 0, 0, 0⟩ true =
      some "calendar.php?day=jun30.2024" ∧
    ¬ ∃ x < 7, dt_is_start_of_month (addDays ⟨2024, 6, 30, 0, 0, 0, 0⟩ x) = true ∧
        dt_is_complete (addDays ⟨2024, 6, 30, 0, 0, 0, 0⟩ x) ⟨2024, 7, 8, 0, 0, 0, 0⟩
          Mode.month = true := by
  refine ⟨by decide, by decide, by decide, by decide, by decide⟩

/-- C2 (amended): for a cursor at a week boundary whose week has elapsed and
that is not an already-elapsed month start, dt_to_url selects day granularity
exactly when some day within the 7-day week begins a month AND the cursor
date's own month has elapsed (the code tests dt_is_complete of the cursor,
not of the weekday, inside the loop), and selects week granularity
otherwise. -/
theorem c2_dt_to_url_week (date now : PyDateTime)
    (h1 : dt_is_start_of_week date = true)
    (h2 : dt_is_complete date now Mode.week = true)
    (h3 : ¬(dt_is_start_of_month date = true ∧
      dt_is_complete date now Mode.month = true)) :
    (dt_to_url date now true = some ("calendar.php?day=" ++ dt_to_str date Mode.day) ↔
      ((∃ x < 7, dt_is_start_of_month (addDays date x) = true) ∧
        dt_is_complete date now Mode.month = true)) ∧
    (dt_to_url date now true = some ("calendar.php?week=" ++ dt_to_str date Mode.week) ↔
      ¬((∃ x < 7, dt_is_start_of_month (addDays date x) = true) ∧
        dt_is_complete date now Mode.month = true)) := by
  have hb1 : (dt_is_start_of_month date && dt_is_complete date now Mode.month) = false := by
    cases ha : dt_is_start_of_month date <;>
      cases hbm : dt_is_complete date now Mode.month <;> simp_all
  have hany : ((List.range 7).any fun x =>
      dt_is_start_of_month (addDays date x) && dt_is_complete date now Mode.month) = true ↔
      ((∃ x < 7, dt_is_start_of_month (addDays date x) = true) ∧
        dt_is_complete date now Mode.month = true) := by
    rw [List.any_eq_true]
    constructor
    · rintro ⟨x, hx, hpx⟩
      rw [Bool.and_eq_true] at hpx
      exact ⟨⟨x, List.mem_range.mp hx, hpx.1⟩, hpx.2⟩
    · rintro ⟨⟨x, hx, hsx⟩, hc⟩
      exact ⟨x, List.mem_range.mpr hx, by rw [Bool.and_eq_true]; exact ⟨hsx, hc⟩⟩
  unfold dt_to_url
  rw [if_neg (show ¬(dt_is_start_of_month date &&
      dt_is_complete date now Mode.month) = true by
    rw [hb1]; exact Bool.false_ne_true)]
  rw [if_pos (show (dt_is_start_of_week date &&
      dt_is_complete date now Mode.week) = true by rw [h1, h2]; rfl)]
  by_cases hA : ((List.range 7).any fun x =>
      dt_is_start_of_month (addDays date x) && dt_is_complete date now Mode.month) = true
  · rw [if_pos hA]
    refine ⟨⟨fun _ => hany.mp hA, fun _ => rfl⟩, ?_, ?_⟩
    · intro hcontra
      exact absurd (Option.some.inj hcontra).symm (week_day_url_ne (dt_to_str date Mode.day))
    · intro hc
      exact absurd (hany.mp hA) hc
  · rw [if_neg hA]
    refine ⟨⟨?_, ?_⟩, fun _ => fun hc => hA (hany.mpr hc), fun _ => rfl⟩
    · intro hcontra
      exact absurd (Option.some.inj hcontra) (week_day_url_ne (dt_to_str date Mode.day))
    · intro hc
      exact absurd (hany.mpr hc) hA

/-- C2 witness: the amended equivalence evaluated at the concrete cursor
Sunday 2024-06-30 with clock 2024-07-08, where the day URL is selected. -/
theorem c2_dt_to_url_week_witness :
    dt_to_url ⟨2024, 6, 30, 0, 0, 0, 0⟩ ⟨2024, 7, 8, 0, 0, 0, 0⟩ true =
      some ("calendar.php?day=" ++ dt_to_str ⟨2024, 6, 30, 0, 0, 0, 0⟩ Mode.day) ↔
    ((∃ x < 7, dt_is_start_of_month (addDays ⟨2024, 6, 30, 0, 0, 0, 0⟩ x) = true) ∧
      dt_is_complete ⟨2024, 6, 30, 0, 0, 0, 0⟩ ⟨2024, 7, 8, 0, 0, 0, 0⟩ Mode.month = true) :=
  (c2_dt_to_url_week ⟨2024, 6, 30, 0, 0, 0, 0⟩ ⟨2024, 7, 8, 0, 0, 0, 0⟩
    (by decide) (by decide) (by decide)).1

/-- C9 counterexample: get_next_dt zeroes only hour and minute, not seconds,
so on the all-day sentinel datetime 2024-01-15 23:59:59 the day step returns
2024-01-16 00:00:59, whose time-of-day is not midnight as the claim states. -/
theorem c9_get_next_dt_counterexample :
    get_next_dt ⟨2024, 1, 15, 23, 59, 59, 0⟩ Mode.day = ⟨2024, 1, 16, 0, 0, 59, 0⟩ ∧
    ¬((get_next_dt ⟨2024, 1, 15, 23, 59, 59, 0⟩ Mode.day).hour = 0 ∧
      (get_next_dt ⟨2024, 1, 15, 23, 59, 59, 0⟩ Mode.day).minute = 0 ∧
      (get_next_dt ⟨2024, 1, 15, 23, 59, 59, 0⟩ Mode.day).second = 0) := by
  decide

/-- C9 (amended): on every valid datetime, get_next_dt advances the date by
exactly 1 day, 7 days, or to the first day of the following calendar month,
sets hour and minute to zero while preserving the seconds field (rather than
normalizing the whole time-of-day to midnight, as the claim stated), and the
result is strictly later than the input. -/
theorem c9_get_next_dt (d : PyDateTime) (h : d.Valid) :
    ((get_next_dt d Mode.day).hour = 0 ∧ (get_next_dt d Mode.day).minute = 0 ∧
      (get_next_dt d Mode.day).second = d.second ∧
      ordinalDay (get_next_dt d Mode.day) = ordinalDay d + 1 ∧
      utcSec d < utcSec (get_next_dt d Mode.day)) ∧
    ((get_next_dt d Mode.week).hour = 0 ∧ (get_next_dt d Mode.week).minute = 0 ∧
      (get_next_dt d Mode.week).second = d.second ∧
      ordinalDay (get_next_dt d Mode.week) = ordinalDay d + 7 ∧
      utcSec d < utcSec (get_next_dt d Mode.week)) ∧
    ((get_next_dt d Mode.month).day = 1 ∧ (get_next_dt d Mode.month).hour = 0 ∧
      (get_next_dt d Mode.month).minute = 0 ∧
      (get_next_dt d Mode.month).second = d.second ∧
      (d.month < 12 → (get_next_dt d Mode.month).year = d.year ∧
        (get_next_dt d Mode.month).month = d.month + 1) ∧
      (d.month = 12 → (get_next_dt d Mode.month).year = d.year + 1 ∧
        (get_next_dt d Mode.month).month = 1) ∧
      utcSec d < utcSec (get_next_dt d Mode.month)) := by
  have h' := h
  obtain ⟨hy, hmo1, hmo2, hd1, hd2, hhh, hmm, hss⟩ := h'
  have hr := replaceHM0_spec d h
  obtain ⟨hro, hrv, hrh, hrm, hrs, hrz⟩ := hr
  have hmord := get_next_dt_month_ordinal d h
  refine ⟨?_, ?_, ?_⟩
  · obtain ⟨ho, hv, hho, hmi, hse, htz⟩ := addDays_spec (replaceHM0 d) hrv 1
    refine ⟨?_, ?_, ?_, ?_, ?_⟩
    · show (addDays (replaceHM0 d) 1).hour = 0
      rw [hho, hrh]
    · show (addDays (replaceHM0 d) 1).minute = 0
      rw [hmi, hrm]
    · show (addDays (replaceHM0 d) 1).second = d.second
      rw [hse, hrs]
    · show ordinalDay (addDays (replaceHM0 d) 1) = ordinalDay d + 1
      rw [ho, hro]
    · show utcSec d < utcSec (addDays (replaceHM0 d) 1)
      unfold utcSec naiveSec
      rw [ho, hro, hho, hrh, hmi, hrm, hse, hrs, htz, hrz]
      omega
  · obtain ⟨ho, hv, hho, hmi, hse, htz⟩ := addDays_spec (replaceHM0 d) hrv 7
    refine ⟨?_, ?_, ?_, ?_, ?_⟩
    · show (addDays (replaceHM0 d) 7).hour = 0
      rw [hho, hrh]
    · show (addDays (replaceHM0 d) 7).minute = 0
      rw [hmi, hrm]
    · show (addDays (replaceHM0 d) 7).second = d.second
      rw [hse, hrs]
    · show ordinalDay (addDays (replaceHM0 d) 7) = ordinalDay d + 7
      rw [ho, hro]
    · show utcSec d < utcSec (addDays (replaceHM0 d) 7)
      unfold utcSec naiveSec
      rw [ho, hro, hho, hrh, hmi, hrm, hse, hrs, htz, hrz]
      omega
  · refine ⟨rfl, rfl, rfl, rfl, ?_, ?_, ?_⟩
    · intro hlt
      constructor
      · show d.year + d.month / 12 = d.year
        omega
      · show d.month % 12 + 1 = d.month + 1
        omega
    · intro heq
      constructor
      · show d.year + d.month / 12 = d.year + 1
        omega
      · show d.month % 12 + 1 = 1
        omega
    · unfold utcSec naiveSec
      rw [hmord]
      have hz : (get_next_dt d Mode.month).tzOffsetMin = d.tzOffsetMin := rfl
      have hh0 : (get_next_dt d Mode.month).hour = 0 := rfl
      have hm0 : (get_next_dt d Mode.month).minute = 0 := rfl
      have hs0 : (get_next_dt d Mode.month).second = d.second := rfl
      rw [hz, hh0, hm0, hs0]
      omega

/-- C9 witness: the amended statement's week and month facts evaluated at the
concrete valid datetime 2024-12-31 05:06:07. -/
theorem c9_get_next_dt_witness :
    (⟨2024, 12, 31, 5, 6, 7, 0⟩ : PyDateTime).Valid ∧
    ordinalDay (get_next_dt ⟨2024, 12, 31, 5, 6, 7, 0⟩ Mode.week) =
      ordinalDay ⟨2024, 12, 31, 5, 6, 7, 0⟩ + 7 ∧
    utcSec ⟨2024, 12, 31, 5, 6, 7, 0⟩ <
      utcSec (get_next_dt ⟨2024, 12, 31, 5, 6, 7, 0⟩ Mode.month) :=
  ⟨by decide,
   (c9_get_next_dt ⟨2024, 12, 31, 5, 6, 7, 0⟩ (by decide)).2.1.2.2.2.1,
   (c9_get_next_dt ⟨2024, 12, 31, 5, 6, 7, 0⟩ (by decide)).2.2.2.2.2.2.2.2⟩

/-- C3 counterexample: with the original start at 2024-01-08 12:00 (a resumed
cursor carries a time of day) and the first date on the page 2024-01-01
00:00, the first date precedes the start by 7.5 days - strictly more than 7
days - and the horizon is not reached, yet the check does not signal
completion, because timedelta.days floors 7.5 to 7 and the code requires the
floored day count to exceed 7. -/
theorem c3_loop_boundary_counterexample :
    7 * 86400 <
      utcSec ⟨2024, 1, 8, 12, 0, 0, 0⟩ - utcSec ⟨2024, 1, 1, 0, 0, 0, 0⟩ ∧
    ¬ (utcSec ⟨2024, 2, 7, 12, 0, 0, 0⟩ ≤ utcSec ⟨2024, 1, 5, 0, 0, 0, 0⟩) ∧
    loop_boundary_check ⟨2024, 1, 8, 12, 0, 0, 0⟩ ⟨2024, 2, 7, 12, 0, 0, 0⟩
      (some ⟨2024, 1, 1, 0, 0, 0, 0⟩) (some ⟨2024, 1, 5, 0, 0, 0, 0⟩) = false := by
  refine ⟨by decide, by decide, by decide⟩

/-- C3 (amended): the after-page check signals completion if and only if the
last date on the page reaches the horizon, or the first date on the page
precedes the originally configured start by more than 7 whole days (the
floor of the day difference exceeds 7); a first date 10 whole days before
the start triggers completion and one 3 days before does not. -/
theorem c3_loop_boundary_check (os ed : PyDateTime) (fd ld : Option PyDateTime) :
    (loop_boundary_check os ed fd ld = true ↔
      ((∃ l, ld = some l ∧ utcSec ed ≤ utcSec l) ∨
       (∃ f, fd = some f ∧ 7 < timedelta_days os f))) ∧
    (∀ a b : PyDateTime, timedelta_days a b = (utcSec a - utcSec b).fdiv 86400) ∧
    loop_boundary_check ⟨2024, 1, 11, 0, 0, 0, 0⟩ ⟨2024, 2, 10, 0, 0, 0, 0⟩
      (some ⟨2024, 1, 1, 0, 0, 0, 0⟩) none = true ∧
    loop_boundary_check ⟨2024, 1, 4, 0, 0, 0, 0⟩ ⟨2024, 2, 3, 0, 0, 0, 0⟩
      (some ⟨2024, 1, 1, 0, 0, 0, 0⟩) none = false := by
  refine ⟨?_, fun a b => rfl, by decide, by decide⟩
  rcases ld with _ | l
  · rcases fd with _ | f
    · simp [loop_boundary_check, first_date_loop_detected]
    · simp [loop_boundary_check, first_date_loop_detected]
  · rcases fd with _ | f
    · simp only [loop_boundary_check]
      split_ifs with hle <;> simp [first_date_loop_detected, hle]
    · simp only [loop_boundary_check]
      split_ifs with hle <;> simp [first_date_loop_detected, hle]

/-- C8 counterexample: in the default URL mode a fetch failure after retry
exhaustion is caught by the orchestrator, which advances the cursor and
continues with the next window; it does not terminate the run as the claim
states. -/
theorem c8_fetch_failure_counterexample :
    on_fetch_failure false ⟨2024, 1, 1, 0, 0, 0, 0⟩ Mode.day =
      FetchFailAction.advanceAndContinue ⟨2024, 1, 2, 0, 0, 0, 0⟩ ∧
    FetchFailAction.advanceAndContinue ⟨2024, 1, 2, 0, 0, 0, 0⟩ ≠
      FetchFailAction.terminate := by
  refine ⟨by decide, by decide⟩

/-- C8 (amended): a page fetch is attempted at most MAX_RETRIES = 3 times;
any success is the result of one of those attempts; the sleeps between
attempts grow exponentially with a jitter in [0, 1) and are capped at
MAX_DELAY = 30; when every attempt fails, the final attempt's exception
propagates out of retry_with_backoff (fatal for that page). The orchestrator
then stops the run only in calendar-navigation mode; in URL mode it logs,
advances the cursor past the failed window and continues. -/
theorem c8_retry_with_backoff (outcome : Nat → Except String Nat)
    (jitter : ℚ) (hj0 : 0 ≤ jitter) (hj1 : jitter < 1) :
    (∀ a : Nat, retry_with_backoff outcome = .ok a →
      ∃ i, i < MAX_RETRIES ∧ outcome i = .ok a) ∧
    ((∀ i, i < MAX_RETRIES → ∃ e, outcome i = Except.error e) →
      retry_with_backoff outcome = outcome 2) ∧
    (∀ i : Nat, backoff_delay i jitter ≤ MAX_DELAY) ∧
    (∀ i : Nat, backoff_delay i jitter ≤ backoff_delay (i + 1) jitter) ∧
    (∀ i : Nat, BASE_DELAY * 2 ^ i + jitter ≤ MAX_DELAY →
      backoff_delay i jitter = BASE_DELAY * 2 ^ i + jitter) ∧
    (∀ d : PyDateTime, ∀ m : Mode,
      on_fetch_failure true d m = FetchFailAction.terminate) ∧
    (∀ d : PyDateTime, ∀ m : Mode,
      on_fetch_failure false d m = FetchFailAction.advanceAndContinue (get_next_dt d m)) := by
  refine ⟨?_, ?_, ?_, ?_, ?_, fun d m => rfl, fun d m => rfl⟩
  · intro a h
    unfold retry_with_backoff at h
    rw [show List.range MAX_RETRIES = [0, 1, 2] from rfl] at h
    cases h0 : outcome 0 with
    | ok x =>
        simp only [retryGo, h0] at h
        exact ⟨0, by decide, by rw [h0, h]⟩
    | error e0 =>
        cases h1 : outcome 1 with
        | ok x =>
            simp only [retryGo, h0, h1] at h
            exact ⟨1, by decide, by rw [h1, h]⟩
        | error e1 =>
            cases h2 : outcome 2 with
            | ok x =>
                simp only [retryGo, h0, h1, h2] at h
                exact ⟨2, by decide, by rw [h2, h]⟩
            | error e2 =>
                rw [show retryGo outcome [0, 1, 2] = outcome 2 by
                  simp only [retryGo, h0, h1]] at h
                rw [h2] at h
                exact Except.noConfusion h
  · intro hall
    obtain ⟨e0, h0⟩ := hall 0 (by decide)
    obtain ⟨e1, h1⟩ := hall 1 (by decide)
    unfold retry_with_backoff
    rw [show List.range MAX_RETRIES = [0, 1, 2] from rfl]
    simp only [retryGo, h0, h1]
  · intro i
    exact min_le_right _ _
  · intro i
    unfold backoff_delay
    refine min_le_min ?_ le_rfl
    have h2i : (2 : ℚ) ^ i ≤ 2 ^ (i + 1) := by
      rw [pow_succ]
      nlinarith [pow_pos (show (0 : ℚ) < 2 by norm_num) i]
    unfold BASE_DELAY
    nlinarith
  · intro i hle
    exact min_eq_left hle

/-- C8 witness: retry exhaustion propagates the final error for a concrete
all-failing outcome sequence, and a concrete delay respects the cap. -/
theorem c8_retry_with_backoff_witness :
    retry_with_backoff (fun _ => (Except.error "boom" : Except String Nat)) =
      Except.error "boom" ∧
    backoff_delay 4 (1 / 2) ≤ MAX_DELAY :=
  ⟨(c8_retry_with_backoff (fun _ => (Except.error "boom" : Except String Nat))
      (1 / 2) (by norm_num) (by norm_num)).2.1 (fun i _ => ⟨"boom", rfl⟩),
   (c8_retry_with_backoff (fun _ => (Except.error "boom" : Except String Nat))
      (1 / 2) (by norm_num) (by norm_num)).2.2.1 4⟩

/-- C4 (code bug): get_start_dt can raise. The except clause catches only
JSONDecodeError, KeyError and ValueError, so a sink whose last line is the
valid JSON literal 123 reaches the membership test of timestamp_utc in the
int 123, which raises an uncaught TypeError (int is not iterable) and
crashes startup instead of falling back to the 2007-01-01 origin the claim
requires; an absent sink, an unparsable last line, and a well-formed last
record (the docstring's 1705329000000, which is 2024-01-15 14:30 UTC) do
behave as the claim describes. -/
theorem c4_get_start_dt_type_error :
    get_start_dt (some "123\n") (-300) = Except.error PyError.typeError ∧
    get_start_dt none (-300) = Except.ok ⟨2007, 1, 1, 0, 0, 0, -300⟩ ∧
    get_start_dt (some "not json\n") (-300) = Except.ok ⟨2007, 1, 1, 0, 0, 0, -300⟩ ∧
    get_start_dt (some "\x7b\"timestamp_utc\": 1705329000000\x7d\n") (-300) =
      Except.ok ⟨2024, 1, 15, 14, 30, 0, 0⟩ := by
  exact ⟨rfl, rfl, rfl, rfl⟩

/-- C7 witness: the amended classifier facts evaluated at concrete instants
with UTC hours 13, 22, 3 and 17. -/
theorem c7_session_classifier_witness :
    get_trading_session ⟨2024, 1, 15, 13, 0, 0, 0⟩ = "london_ny_overlap" ∧
    get_trading_session ⟨2024, 1, 15, 22, 0, 0, 0⟩ = "asian" ∧
    get_trading_session ⟨2024, 1, 15, 3, 0, 0, 0⟩ = "asian" ∧
    get_trading_session ⟨2024, 1, 15, 17, 0, 0, 0⟩ = "new_york" :=
  ⟨(c7_session_classifier ⟨2024, 1, 15, 13, 0, 0, 0⟩).2.2.2.2.2.2.1 (by decide),
   (c7_session_classifier ⟨2024, 1, 15, 22, 0, 0, 0⟩).2.2.2.2.2.2.2.1 (by decide),
   (c7_session_classifier ⟨2024, 1, 15, 3, 0, 0, 0⟩).2.2.2.2.2.2.2.2.1 (by decide),
   (c7_session_classifier ⟨2024, 1, 15, 17, 0, 0, 0⟩).2.2.2.2.2.2.2.2.2 (by decide)⟩

end FFS
